import Mathlib

/-!
Shallow embedding of the learn2game front-end (src/src/App.js):
the per-game quiz session state machine, the page controller submit
flow, and the game renderer dispatch.
-/

namespace Learn2Game

/-- Per-game quiz session state, as held by `MultipleChoiceGame` /
`FillInTheBlanksGame` in App.js: `selectedAnswers` / `userAnswers`
(a map from item index to the current response, absent = `none`),
`showResults` (a map from item index to a boolean, default false),
`score`, and the session-wide `submitted` flag. -/
structure QuizSessionState where
  responses : Nat → Option String
  revealed : Nat → Bool
  score : Nat
  submitted : Bool

/-- The fresh state created by the `useState` initialisers: empty maps,
score 0, not submitted. -/
def initSession : QuizSessionState :=
  { responses := fun _ => none
    revealed := fun _ => false
    score := 0
    submitted := false }

/-- `handleOptionChange(qIndex, option)` in MultipleChoiceGame and
`handleInputChange(blankIndex, value)` in FillInTheBlanksGame (the two
bodies are identical): store the value under the index and reset that
index entry of `showResults` to false. -/
def recordResponse (s : QuizSessionState) (i : Nat) (v : String) : QuizSessionState :=
  { s with
    responses := fun j => if j = i then some v else s.responses j
    revealed := fun j => if j = i then false else s.revealed j }

/-- The multiple-choice match test: `selectedAnswers[qIndex] === correctAnswer`.
An absent response (undefined) is not strictly equal to any string. -/
def mcMatch (r : Option String) (correctAnswer : String) : Bool :=
  match r with
  | some v => v == correctAnswer
  | none => false

/-- The fill-in-the-blank match test:
`userAnswers[blankIndex]?.toLowerCase() === correctAnswer.toLowerCase()`.
An absent response short-circuits to undefined, unequal to any string. -/
def fibMatch (r : Option String) (correctAnswer : String) : Bool :=
  match r with
  | some v => v.toLower == correctAnswer.toLower
  | none => false

/-- `handleSubmitAnswer(qIndex, correctAnswer)` in MultipleChoiceGame:
set `showResults[qIndex] = true`; if the stored response strictly equals
the correct answer and the session is not yet `submitted`, increment
`score`; then set `submitted = true` unconditionally. -/
def mcCheckAnswer (s : QuizSessionState) (i : Nat) (correctAnswer : String) : QuizSessionState :=
  { s with
    revealed := fun j => if j = i then true else s.revealed j
    score := if mcMatch (s.responses i) correctAnswer && !s.submitted then s.score + 1 else s.score
    submitted := true }

/-- `handleSubmitAnswer(blankIndex, correctAnswer)` in FillInTheBlanksGame:
same shape as the multiple-choice handler but with the case-insensitive
comparison. -/
def fibCheckAnswer (s : QuizSessionState) (i : Nat) (correctAnswer : String) : QuizSessionState :=
  { s with
    revealed := fun j => if j = i then true else s.revealed j
    score := if fibMatch (s.responses i) correctAnswer && !s.submitted then s.score + 1 else s.score
    submitted := true }

/-- Concrete scenario for the locking policy: a multiple-choice session
with two questions whose correct answers are "A" and "B", both answered
correctly, then checked in order. -/
def twoQuestionScenario : QuizSessionState :=
  mcCheckAnswer (mcCheckAnswer (recordResponse (recordResponse initSession 0 "A") 1 "B") 0 "A") 1 "B"

/-- One question of a multiple-choice game, as consumed by App.js. -/
structure Question where
  question : String
  options : List String
  correctAnswer : String
  explanation : String
  hint : Option String

/-- One blank of a fill-in-the-blanks game, as consumed by App.js. -/
structure Blank where
  sentence : String
  answer : String
  explanation : String
  hint : Option String

/-- One game object of the decoded response; App.js dispatches on the
`type` string and reads `questions` or `blanks` depending on it. -/
structure Game where
  type : String
  title : String
  description : String
  questions : List Question
  blanks : List Blank

/-- The decoded response stored in `gameData`. -/
structure GameBundle where
  lessonSummary : String
  complexity : String
  ageRange : String
  games : List Game

/-- The outbound request body built in generateGames: `{ lessonText }`. -/
structure LessonSubmission where
  lessonText : String

/-- The outbound request issued by `post` in generateGames. -/
structure Request where
  apiName : String
  path : String
  body : LessonSubmission

/-- The error caught in generateGames; `message` models `err.message`,
with `none` for an absent field. -/
structure ApiError where
  message : Option String

/-- Top-level App state: `lessonText`, `gameData`, `loading`, `error`. -/
structure PageState where
  lessonText : String
  gameData : Option GameBundle
  loading : Bool
  error : String

/-- The `lessonText.trim()` call of the blank-input guard: strip
whitespace from both ends of the string. -/
def jsTrim (s : String) : String :=
  ⟨((s.data.dropWhile Char.isWhitespace).reverse.dropWhile Char.isWhitespace).reverse⟩

/-- The validation message set for blank input. -/
def validationMsg : String := "Please paste or type some lesson content."

/-- The fixed fallback sentence of the catch branch. -/
def fallbackMsg : String :=
  "Failed to generate games. Please try again. Make sure your serverless function is deployed correctly."

/-- The message built in the catch branch: the fallback, with
" Error: " and the underlying message appended when `err.message` is
truthy (present and nonempty). -/
def displayError (e : ApiError) : String :=
  match e.message with
  | some m => if m = "" then fallbackMsg else fallbackMsg ++ " Error: " ++ m
  | none => fallbackMsg

/-- Result of the synchronous prefix of generateGames: either the blank
guard rejected the submission, or a request was issued and the state is
pending (loading set, gameData and error cleared). -/
inductive SubmitStep where
  | rejected (s : PageState)
  | issued (pending : PageState) (req : Request)

/-- The synchronous prefix of generateGames: if `lessonText.trim()` is
empty, set the validation error and return; otherwise set
`loading = true`, clear `gameData` and `error`, and issue one POST to
apiName "learn2gameapi", path "/items", body `{ lessonText }`. -/
def startSubmit (s : PageState) : SubmitStep :=
  if jsTrim s.lessonText = "" then
    .rejected { s with error := validationMsg }
  else
    .issued { s with loading := true, gameData := none, error := "" }
      { apiName := "learn2gameapi", path := "/items", body := { lessonText := s.lessonText } }

/-- The request issued by a submit step, if any. -/
def issuedRequest : SubmitStep → Option Request
  | .rejected _ => none
  | .issued _ req => some req

/-- The rest of generateGames once the awaited response resolves: on
success store the decoded bundle in `gameData`; on failure set `error`
to the built message; in both cases the finally block resets
`loading = false`. -/
def resolveSubmit (pending : PageState) (outcome : Except ApiError GameBundle) : PageState :=
  match outcome with
  | .ok bundle => { pending with gameData := some bundle, loading := false }
  | .error e => { pending with error := displayError e, loading := false }

/-- The submit button carries `disabled={loading}`. -/
def submitDisabled (s : PageState) : Bool := s.loading

/-- The lesson-text textarea carries no disabled attribute at all. -/
def textareaDisabled (_ : PageState) : Bool := false

/-- The two widget constructors the render dispatch can pick. -/
inductive WidgetKind where
  | multipleChoice
  | fillInTheBlanks
deriving DecidableEq

/-- A rendered game widget: the chosen constructor, the game it shows,
and the session state it owns; a freshly mounted component instance
starts from the useState initialisers, i.e. `initSession`. -/
structure Widget where
  kind : WidgetKind
  game : Game
  session : QuizSessionState

/-- The dispatch in `gameData.games.map`: type "multipleChoice" mounts
MultipleChoiceGame, type "fillInTheBlanks" mounts FillInTheBlanksGame,
anything else returns null. -/
def renderGame (g : Game) : Option Widget :=
  if g.type = "multipleChoice" then some ⟨.multipleChoice, g, initSession⟩
  else if g.type = "fillInTheBlanks" then some ⟨.fillInTheBlanks, g, initSession⟩
  else none

/-- The games list is rendered by mapping the dispatch over it in order;
`none` entries produce no visible output. -/
def renderGames (gs : List Game) : List (Option Widget) :=
  gs.map renderGame

/-- Identifiers in scope inside the feedback panel of the
FillInTheBlanksGame JSX (the component parameter, its state, its
handlers, and the binders of the enclosing blanks.map callback). -/
def fibFeedbackScope : List String :=
  ["game", "userAnswers", "setUserAnswers", "showResults", "setShowResults",
   "score", "setScore", "submitted", "setSubmitted",
   "handleInputChange", "handleSubmitAnswer", "isCorrect", "b", "bIndex"]

/-- The object identifier the source feedback panel reads `explanation`
and `hint` from (lines 205-206 of App.js). -/
def fibFeedbackIdent : String := "q"

/-- The identifier bound to the current blank in the map callback. -/
def currentBlankIdent : String := "b"

/-- Concrete page states and payloads used by the witnesses. -/
def sampleState : PageState := { lessonText := "hi", gameData := none, loading := false, error := "" }

def samplePending : PageState := { lessonText := "hi", gameData := none, loading := true, error := "" }

def sampleRequest : Request :=
  { apiName := "learn2gameapi", path := "/items", body := { lessonText := "hi" } }

def sampleBundle : GameBundle :=
  { lessonSummary := "sum", complexity := "easy", ageRange := "6-8", games := [] }

def blankState : PageState := { lessonText := "  ", gameData := none, loading := false, error := "" }

def loadingState : PageState := { lessonText := "", gameData := none, loading := true, error := "" }

/-- The request generateGames builds for a given lesson text. -/
def requestFor (t : String) : Request :=
  { apiName := "learn2gameapi", path := "/items", body := { lessonText := t } }

end Learn2Game

namespace Learn2Game

/-- If every element surviving dropWhile satisfies the predicate then
every element of the list does, and conversely. -/
theorem dropWhile_forall (p : Char → Bool) (l : List Char) :
    (∀ x ∈ l.dropWhile p, p x) ↔ ∀ x ∈ l, p x := by
  constructor
  · intro h x hx
    rcases List.mem_append.mp ((List.takeWhile_append_dropWhile p (l := l)).symm ▸ hx) with h1 | h2
    · exact List.mem_takeWhile_imp h1
    · exact h x h2
  · intro h x hx
    exact h x ((List.dropWhile_sublist p).subset hx)

/-- The blank-input guard fires exactly when the lesson text is empty or
whitespace-only: trimming yields "" iff every character is whitespace. -/
theorem jsTrim_eq_empty_iff (s : String) :
    jsTrim s = "" ↔ ∀ c ∈ s.data, c.isWhitespace := by
  unfold jsTrim
  constructor
  · intro h
    have hl : ((s.data.dropWhile Char.isWhitespace).reverse.dropWhile Char.isWhitespace).reverse
        = [] := by
      simpa [String.ext_iff] using h
    have h2 : (s.data.dropWhile Char.isWhitespace).reverse.dropWhile Char.isWhitespace = [] :=
      List.reverse_eq_nil_iff.mp hl
    have h3 : ∀ x ∈ (s.data.dropWhile Char.isWhitespace).reverse, x.isWhitespace :=
      List.dropWhile_eq_nil_iff.mp h2
    have h4 : ∀ x ∈ s.data.dropWhile Char.isWhitespace, x.isWhitespace := fun x hx =>
      h3 x (List.mem_reverse.mpr hx)
    exact (dropWhile_forall _ _).mp h4
  · intro h
    have h4 : s.data.dropWhile Char.isWhitespace = [] := List.dropWhile_eq_nil_iff.mpr h
    simp [h4, String.ext_iff]

/-- C1: once checkAnswer has run on any item the session is locked
(`submitted = true`), and a checkAnswer call on a locked session never
increments score, for either game kind, even when the stored response
equals the correct value; in a two-question session answered correctly
and checked in order the final score is 1. -/
theorem checkAnswer_locking :
    (∀ s i c, (mcCheckAnswer s i c).submitted = true) ∧
    (∀ s i c, (fibCheckAnswer s i c).submitted = true) ∧
    (∀ s i c, s.submitted = true → (mcCheckAnswer s i c).score = s.score) ∧
    (∀ s i c, s.submitted = true → (fibCheckAnswer s i c).score = s.score) ∧
    twoQuestionScenario.score = 1 := by
  refine ⟨fun s i c => rfl, fun s i c => rfl, ?_, ?_, by decide⟩
  · intro s i c h
    simp [mcCheckAnswer, h]
  · intro s i c h
    simp [fibCheckAnswer, h]

/-- Witness for C1: applying the locking theorem at a concrete locked
session shows a correct second answer leaves the score at 1. -/
theorem checkAnswer_locking_witness :
    (mcCheckAnswer (mcCheckAnswer (recordResponse (recordResponse initSession 0 "A") 1 "B") 0 "A") 1 "B").score
      = (mcCheckAnswer (recordResponse (recordResponse initSession 0 "A") 1 "B") 0 "A").score :=
  checkAnswer_locking.2.2.1
    (mcCheckAnswer (recordResponse (recordResponse initSession 0 "A") 1 "B") 0 "A") 1 "B" rfl

/-- Lower-casing a nonempty string never yields the empty string
(it maps each character, preserving length). -/
theorem toLower_ne_empty (c : String) (h : c ≠ "") : c.toLower ≠ "" := by
  intro hc
  apply h
  have : c.toLower = ⟨c.data.map Char.toLower⟩ := String.map_eq Char.toLower c
  rw [this] at hc
  have hdata : c.data.map Char.toLower = [] := by
    simpa [String.ext_iff] using hc
  have : c.data = [] := List.map_eq_nil_iff.mp hdata
  simpa [String.ext_iff] using this

/-- Lower-casing the empty string yields the empty string. -/
theorem toLower_empty : "".toLower = "" := by
  show String.map Char.toLower "" = ""
  rw [String.map_eq]
  rfl

/-- C2 counterexample: with the correct answer "" and a stored (present)
response "", fibCheckAnswer scores the item correct — the score of a
fresh session rises to 1 — so a response of "" is not always scored
incorrect. -/
theorem fib_empty_response_scored :
    (fibCheckAnswer (recordResponse initSession 0 "") 0 "").score = 1 := by
  have hm : fibMatch (some "") "" = true := by simp [fibMatch]
  simp [fibCheckAnswer, hm, recordResponse, initSession]

/-- C2 (amended): the fill-in-the-blank judgement is lower-cased
equality on a present response, an absent response is judged unequal to
every answer, and a response of "" is scored incorrect for every
nonempty answer (when the answer is itself "" the empty response is
scored correct); on an unlocked session checkAnswer increments the score
exactly when the judgement holds. -/
theorem fib_match_spec :
    (∀ r c, fibMatch (some r) c = (r.toLower == c.toLower)) ∧
    (∀ c, fibMatch none c = false) ∧
    (∀ c, c ≠ "" → fibMatch (some "") c = false) ∧
    (∀ s i c, s.submitted = false →
      (fibCheckAnswer s i c).score =
        (if fibMatch (s.responses i) c then s.score + 1 else s.score)) := by
  refine ⟨fun r c => rfl, fun c => rfl, ?_, ?_⟩
  · intro c hc
    have h := toLower_ne_empty c hc
    simp only [fibMatch]
    rw [toLower_empty]
    exact beq_false_of_ne (fun h2 => h h2.symm)
  · intro s i c h
    simp only [fibCheckAnswer, h]
    cases fibMatch (s.responses i) c <;> simp

/-- Witness for C2: the amended judgement evaluated at the spec examples,
response "Paris" against answer "paris" is correct, response "" against
answer "paris" is incorrect, and an unlocked check on a correct stored
response adds one to the score. -/
theorem fib_match_spec_witness :
    fibMatch (some "Paris") "paris" = ("Paris".toLower == "paris".toLower) ∧
    fibMatch none "paris" = false ∧
    fibMatch (some "") "paris" = false ∧
    (fibCheckAnswer (recordResponse initSession 0 "Paris") 0 "paris").score =
      (if fibMatch ((recordResponse initSession 0 "Paris").responses 0) "paris"
        then (recordResponse initSession 0 "Paris").score + 1
        else (recordResponse initSession 0 "Paris").score) :=
  ⟨fib_match_spec.1 "Paris" "paris",
   fib_match_spec.2.1 "paris",
   fib_match_spec.2.2.1 "paris" (by decide),
   fib_match_spec.2.2.2 (recordResponse initSession 0 "Paris") 0 "paris" rfl⟩

/-- C6: recordResponse sets the response at the given index, resets that
index to unrevealed, and leaves the score, the submitted flag and every
other index untouched. -/
theorem recordResponse_frame (s : QuizSessionState) (i : Nat) (v : String) :
    (recordResponse s i v).responses i = some v ∧
    (recordResponse s i v).revealed i = false ∧
    (recordResponse s i v).score = s.score ∧
    (recordResponse s i v).submitted = s.submitted ∧
    ∀ j, j ≠ i →
      (recordResponse s i v).responses j = s.responses j ∧
      (recordResponse s i v).revealed j = s.revealed j := by
  refine ⟨by simp [recordResponse], by simp [recordResponse], rfl, rfl, ?_⟩
  intro j hj
  exact ⟨by simp [recordResponse, hj], by simp [recordResponse, hj]⟩

/-- Witness for C6: the frame theorem instantiated at a concrete state,
index 0 and value "x", reading back index 0 and the untouched index 1. -/
theorem recordResponse_frame_witness :
    (recordResponse initSession 0 "x").responses 0 = some "x" ∧
    (recordResponse initSession 0 "x").responses 1 = initSession.responses 1 ∧
    (recordResponse initSession 0 "x").revealed 1 = initSession.revealed 1 := by
  have h := recordResponse_frame initSession 0 "x"
  exact ⟨h.1, (h.2.2.2.2 1 (by decide)).1, (h.2.2.2.2 1 (by decide)).2⟩

/-- C3: when a submission issues a request and the response decodes to a
bundle, afterward gameData holds exactly that bundle, error is empty and
loading is false. -/
theorem submit_success (s pending : PageState) (req : Request) (b : GameBundle)
    (h : startSubmit s = .issued pending req) :
    (resolveSubmit pending (.ok b)).gameData = some b ∧
    (resolveSubmit pending (.ok b)).error = "" ∧
    (resolveSubmit pending (.ok b)).loading = false := by
  unfold startSubmit at h
  split at h
  · exact SubmitStep.noConfusion h
  · cases h
    exact ⟨rfl, rfl, rfl⟩

/-- Witness for C3: the success theorem applied to a concrete issued
submission and a concrete decoded bundle. -/
theorem submit_success_witness :
    (resolveSubmit samplePending (.ok sampleBundle)).gameData = some sampleBundle ∧
    (resolveSubmit samplePending (.ok sampleBundle)).error = "" ∧
    (resolveSubmit samplePending (.ok sampleBundle)).loading = false :=
  submit_success sampleState samplePending sampleRequest sampleBundle rfl

/-- C4: when a submission issues a request and it fails, afterward
gameData is unset, error is non-empty, loading is false, and error is
the fixed fallback sentence with the underlying message appended when a
nonempty one is present. -/
theorem submit_failure (s pending : PageState) (req : Request) (e : ApiError)
    (h : startSubmit s = .issued pending req) :
    (resolveSubmit pending (.error e)).gameData = none ∧
    (resolveSubmit pending (.error e)).error ≠ "" ∧
    (resolveSubmit pending (.error e)).loading = false ∧
    (resolveSubmit pending (.error e)).error = displayError e ∧
    (e.message = none → displayError e = fallbackMsg) ∧
    ∀ m, e.message = some m → m ≠ "" → displayError e = fallbackMsg ++ " Error: " ++ m := by
  unfold startSubmit at h
  split at h
  · exact SubmitStep.noConfusion h
  · cases h
    refine ⟨rfl, ?_, rfl, rfl, ?_, ?_⟩
    · show displayError e ≠ ""
      unfold displayError
      match e.message with
      | none => decide
      | some m =>
        by_cases hm : m = "" <;> simp only [hm, if_true, if_false, reduceIte]
        · decide
        · intro hc
          have h1 : (fallbackMsg ++ " Error: " ++ m).length = 0 := by rw [hc]; rfl
          rw [String.length_append, String.length_append] at h1
          have h2 : fallbackMsg.length = 0 := by omega
          exact absurd h2 (by decide)
    · intro hnone
      simp [displayError, hnone]
    · intro m hm hne
      simp [displayError, hm, hne]

/-- Witness for C4: the failure theorem applied to a concrete issued
submission and an error carrying message "boom". -/
theorem submit_failure_witness :
    (resolveSubmit samplePending (.error { message := some "boom" })).gameData = none ∧
    (resolveSubmit samplePending (.error { message := some "boom" })).error
      = fallbackMsg ++ " Error: " ++ "boom" ∧
    (resolveSubmit samplePending (.error { message := some "boom" })).loading = false := by
  have h := submit_failure sampleState samplePending sampleRequest { message := some "boom" } rfl
  exact ⟨h.1, h.2.2.2.1.trans (h.2.2.2.2.2 "boom" rfl (by decide)), h.2.2.1⟩

/-- C5: for empty or whitespace-only lesson text, submit issues no
request, leaves loading and gameData (and the text) unchanged, and sets
error to the validation message. -/
theorem submit_blank (s : PageState) (h : ∀ c ∈ s.lessonText.data, c.isWhitespace) :
    issuedRequest (startSubmit s) = none ∧
    ∃ s2, startSubmit s = .rejected s2 ∧
      s2.loading = s.loading ∧ s2.gameData = s.gameData ∧
      s2.error = validationMsg ∧ s2.lessonText = s.lessonText := by
  have hg : jsTrim s.lessonText = "" := (jsTrim_eq_empty_iff s.lessonText).mpr h
  refine ⟨?_, { s with error := validationMsg }, ?_, rfl, rfl, rfl, rfl⟩ <;>
    simp [startSubmit, issuedRequest, hg]

/-- Witness for C5: the blank-guard theorem applied to a state whose
lesson text is two spaces. -/
theorem submit_blank_witness :
    issuedRequest (startSubmit blankState) = none :=
  (submit_blank blankState (by decide)).1

/-- C8: for non-blank lesson text, submit issues exactly one POST
request to path "/items" with body carrying the current lesson text, and
the pending state has loading true and the submit control disabled. -/
theorem submit_nonblank (s : PageState) (h : ∃ c ∈ s.lessonText.data, ¬ c.isWhitespace) :
    ∃ pending, startSubmit s = .issued pending (requestFor s.lessonText) ∧
      issuedRequest (startSubmit s) = some (requestFor s.lessonText) ∧
      pending.loading = true ∧ submitDisabled pending = true := by
  have hg : jsTrim s.lessonText ≠ "" := by
    intro hc
    obtain ⟨c, hc1, hc2⟩ := h
    exact hc2 ((jsTrim_eq_empty_iff s.lessonText).mp hc c hc1)
  refine ⟨{ s with loading := true, gameData := none, error := "" }, ?_, ?_, rfl, rfl⟩ <;>
    simp [startSubmit, issuedRequest, requestFor, hg]

/-- Witness for C8: the submission theorem applied to a concrete state
with lesson text "hi" yields the concrete request. -/
theorem submit_nonblank_witness :
    issuedRequest (startSubmit sampleState) = some sampleRequest := by
  have h := submit_nonblank sampleState ⟨Char.ofNat 104, by decide, by decide⟩
  obtain ⟨pending, -, h2, -, -⟩ := h
  exact h2

/-- C10 counterexample: with loading true, the lesson-text input is
still enabled — its disabled state is not "exactly when loading is
true". -/
theorem textarea_not_loading_driven :
    textareaDisabled loadingState = false ∧ loadingState.loading = true :=
  ⟨rfl, rfl⟩

/-- C10 (amended): the lesson-text input control is never disabled
(constantly enabled, independent of loading), while the submit control
is disabled exactly when loading is true. -/
theorem disabled_controls (s : PageState) :
    textareaDisabled s = false ∧ submitDisabled s = s.loading :=
  ⟨rfl, rfl⟩

/-- C7: the renderer maps type "multipleChoice" to the multiple-choice
widget and type "fillInTheBlanks" to the fill-in-the-blanks widget, each
with a fresh session state, maps every other type to no output, and
renders the games sequence in order (entry i of the output is the
dispatch of entry i of the input). -/
theorem renderGame_dispatch :
    (∀ g : Game, g.type = "multipleChoice" →
      renderGame g = some ⟨WidgetKind.multipleChoice, g, initSession⟩) ∧
    (∀ g : Game, g.type = "fillInTheBlanks" →
      renderGame g = some ⟨WidgetKind.fillInTheBlanks, g, initSession⟩) ∧
    (∀ g : Game, g.type ≠ "multipleChoice" → g.type ≠ "fillInTheBlanks" →
      renderGame g = none) ∧
    (∀ gs : List Game, (renderGames gs).length = gs.length ∧
      ∀ i : Nat, (renderGames gs)[i]? = (gs[i]?).map renderGame) := by
  refine ⟨?_, ?_, ?_, ?_⟩
  · intro g h
    simp [renderGame, h]
  · intro g h
    simp [renderGame, h]
  · intro g h1 h2
    simp [renderGame, h1, h2]
  · intro gs
    exact ⟨by simp [renderGames], fun i => by simp [renderGames]⟩

/-- Witness for C7: the dispatch theorem applied to three concrete
games, one of each type and one unknown. -/
theorem renderGame_dispatch_witness :
    renderGame ⟨"multipleChoice", "t", "d", [], []⟩
      = some ⟨WidgetKind.multipleChoice, ⟨"multipleChoice", "t", "d", [], []⟩, initSession⟩ ∧
    renderGame ⟨"fillInTheBlanks", "t", "d", [], []⟩
      = some ⟨WidgetKind.fillInTheBlanks, ⟨"fillInTheBlanks", "t", "d", [], []⟩, initSession⟩ ∧
    renderGame ⟨"crossword", "t", "d", [], []⟩ = none :=
  ⟨renderGame_dispatch.1 ⟨"multipleChoice", "t", "d", [], []⟩ rfl,
   renderGame_dispatch.2.1 ⟨"fillInTheBlanks", "t", "d", [], []⟩ rfl,
   renderGame_dispatch.2.2.1 ⟨"crossword", "t", "d", [], []⟩ (by decide) (by decide)⟩

/-- C9: the identifier the fill-in-the-blanks feedback panel reads its
explanation and hint from is not among the identifiers in scope there,
and in particular is not the binder of the current blank — the source
violates the claim that the panel binds to the current blank. -/
theorem fib_feedback_out_of_scope :
    fibFeedbackIdent ∉ fibFeedbackScope ∧ fibFeedbackIdent ≠ currentBlankIdent := by
  decide

end Learn2Game
